import Mathlib

/-!
Verification of the statistics derivation engine of `produce-match-stats.py`
(padel-analytics). The point log table `fact_point` is embedded as a list of
`PointRow` records and the match list `fact_match` as a list of `MatchRow`
records. Each metric module of the source file is embedded as per-match
aggregation functions; pandas `groupby(key).agg` is modelled as
filter-then-count over the rows carrying that key, pandas left merges as
per-row lookups that yield `none` (NaN) when the key is absent or itself
null, and `pd.to_numeric(errors="coerce")` as an `Option Int` parser whose
`none` result makes every comparison false, exactly as NaN comparisons are
false in pandas.
-/

namespace PadelStats

/-- One row of the silver `fact_point` table as consumed by
`produce-match-stats.py`: ordering keys, pre-point score tokens for both
teams at the point / game (set-game count) / set level, and the boolean
columns `is_tiebreak`, `is_deuce`, `is_game_point` that arrive with the
input table (the script reads them from `df_scores`, it does not create
them). -/
structure PointRow where
  match_id : Nat
  set_number : Nat
  game_number : Nat
  point_number : Nat
  point_score_team_1 : String
  point_score_team_2 : String
  game_score_team_1 : String
  game_score_team_2 : String
  set_score_team_1 : String
  set_score_team_2 : String
  is_tiebreak : Bool
  is_deuce : Bool
  is_game_point : Bool
deriving DecidableEq

/-- One row of the silver `fact_match` table: the join key `id` plus the
`sets_to_win` attribute named by the spec (other metadata is irrelevant to
the engine). `produce-match-stats.py` only ever reads `id`. -/
structure MatchRow where
  id : Nat
  sets_to_win : Option Nat
deriving DecidableEq

/-- Digit-string parser used by `toNum?`. -/
def parseNatDigits (cs : List Char) : Option Nat :=
  match cs with
  | [] => none
  | _ =>
    if cs.all Char.isDigit then
      some (cs.foldl (fun a c => 10 * a + (c.toNat - 48)) 0)
    else none

/-- `pd.to_numeric(s, errors="coerce")` on a score token: an optional sign
followed by digits parses to an integer, anything else (such as the
advantage token "A") coerces to NaN, embedded as `none`. -/
def toNum? (s : String) : Option Int :=
  match s.data with
  | [] => none
  | c :: rest =>
    if c = '-' then (parseNatDigits rest).map (fun n => -(n : Int))
    else (parseNatDigits (c :: rest)).map (fun n => (n : Int))

/-- The composite ordering key `(match_id, set_number, game_number,
point_number)` used by the `sort_values` calls of the source. -/
def keyOf (r : PointRow) : Nat × Nat × Nat × Nat :=
  (r.match_id, r.set_number, r.game_number, r.point_number)

/-- Lexicographic `≤` on the 4-component ordering key. -/
def lex4Le (x y : Nat × Nat × Nat × Nat) : Bool :=
  x.1 < y.1 || (x.1 == y.1 && (x.2.1 < y.2.1 || (x.2.1 == y.2.1 &&
    (x.2.2.1 < y.2.2.1 || (x.2.2.1 == y.2.2.1 && x.2.2.2 ≤ y.2.2.2)))))

/-- Lexicographic `<` on the 4-component ordering key. -/
def lex4Lt (x y : Nat × Nat × Nat × Nat) : Bool :=
  x.1 < y.1 || (x.1 == y.1 && (x.2.1 < y.2.1 || (x.2.1 == y.2.1 &&
    (x.2.2.1 < y.2.2.1 || (x.2.2.1 == y.2.2.1 && x.2.2.2 < y.2.2.2)))))

/-- Ordered insertion wrt the lexicographic key order. -/
def insertRow (a : PointRow) : List PointRow → List PointRow
  | [] => [a]
  | b :: t =>
    if lex4Le (keyOf a) (keyOf b) then a :: b :: t else b :: insertRow a t

/-- `df.sort_values(["match_id", "set_number", "game_number",
"point_number"])` (lines 167 and 215-217 of the source), embedded as an
insertion sort: the result is a permutation of the input sorted by the
lexicographic composite key, which is all `sort_values` guarantees (its
default quicksort is not even stable). -/
def sortPoints : List PointRow → List PointRow
  | [] => []
  | a :: t => insertRow a (sortPoints t)

/-- The `(match_id, set_number, game_number)` game grouping key. -/
def gameKey (r : PointRow) : Nat × Nat × Nat :=
  (r.match_id, r.set_number, r.game_number)

/-- The `(match_id, set_number)` set grouping key. -/
def setKey (r : PointRow) : Nat × Nat :=
  (r.match_id, r.set_number)

/-- `groupby(keys)["point_number"].shift(-1).notna()` (lines 187-189,
257-259, 297-299): pairs every row with the flag "a row with the same group
key appears later in the frame". pandas `shift(-1)` inside a group is
non-null exactly on the rows of the group other than its last occurrence,
whatever the frame order, which is precisely `rest.any` on the same key. -/
def markNext {κ : Type} [DecidableEq κ] (k : PointRow → κ) :
    List PointRow → List (PointRow × Bool)
  | [] => []
  | r :: rest =>
    (r, rest.any (fun s => decide (k s = k r))) :: markNext k rest

/-- Pre-point game-point flag for team 1 in a regular game (line 177):
score token "A", or "40" against "0"/"15"/"30". -/
def gpFor1 (r : PointRow) : Bool :=
  r.point_score_team_1 == "A" ||
    (r.point_score_team_1 == "40" &&
      (r.point_score_team_2 == "0" || r.point_score_team_2 == "15" ||
        r.point_score_team_2 == "30"))

/-- Pre-point game-point flag for team 2 in a regular game (line 178). -/
def gpFor2 (r : PointRow) : Bool :=
  r.point_score_team_2 == "A" ||
    (r.point_score_team_2 == "40" &&
      (r.point_score_team_1 == "0" || r.point_score_team_1 == "15" ||
        r.point_score_team_1 == "30"))

/-- Tie-break winner test for team 1 used in `get_tiebreak_stats` (line
107): pre-point score +1 reaches 7 with a margin of 2. A NaN on either side
makes both pandas comparisons false. -/
def tbWin1 (r : PointRow) : Bool :=
  match toNum? r.point_score_team_1, toNum? r.point_score_team_2 with
  | some a, some b => a + 1 ≥ 7 && a + 1 - b ≥ 2
  | _, _ => false

/-- Tie-break winner test for team 2 (line 108). -/
def tbWin2 (r : PointRow) : Bool :=
  match toNum? r.point_score_team_1, toNum? r.point_score_team_2 with
  | some a, some b => b + 1 ≥ 7 && b + 1 - a ≥ 2
  | _, _ => false

/-- Set-point flag for team 1 from `add_set_point_flqgs` (lines 220-244):
on a regular row, game point together with a set-game count of 5 against at
most 4, or 6 against 5, on the numerically coerced game scores (either NaN
makes both disjuncts false); on a tie-break row, the tie-break winner test
on the coerced point scores. -/
def spFor1 (r : PointRow) : Bool :=
  if r.is_tiebreak then tbWin1 r
  else
    gpFor1 r &&
      match toNum? r.game_score_team_1, toNum? r.game_score_team_2 with
      | some g1, some g2 => (g1 == 5 && g2 ≤ 4) || (g1 == 6 && g2 == 5)
      | _, _ => false

/-- Set-point flag for team 2 from `add_set_point_flqgs`. -/
def spFor2 (r : PointRow) : Bool :=
  if r.is_tiebreak then tbWin2 r
  else
    gpFor2 r &&
      match toNum? r.game_score_team_1, toNum? r.game_score_team_2 with
      | some g1, some g2 => (g2 == 5 && g1 ≤ 4) || (g2 == 6 && g1 == 5)
      | _, _ => false

/-- `pd.to_numeric(set_score_team_1, errors="coerce").fillna(0)` (line
286): the pre-point count of sets won by team 1, with 0 for a malformed
token. -/
def setsWon1 (r : PointRow) : Int :=
  (toNum? r.set_score_team_1).getD 0

/-- Coerced pre-point count of sets won by team 2 (line 287). -/
def setsWon2 (r : PointRow) : Int :=
  (toNum? r.set_score_team_2).getD 0

/-- Match-point flag for team 1 (line 289): set point and at least
`sets_to_win - 1` sets already won. -/
def mpFor1 (sets_to_win : Int) (r : PointRow) : Bool :=
  spFor1 r && setsWon1 r ≥ sets_to_win - 1

/-- Match-point flag for team 2 (line 290). -/
def mpFor2 (sets_to_win : Int) (r : PointRow) : Bool :=
  spFor2 r && setsWon2 r ≥ sets_to_win - 1

/-- The rows of the point log belonging to one match: membership of a
pandas `groupby("match_id")` group. -/
def rowsOfMatch (l : List PointRow) (i : Nat) : List PointRow :=
  l.filter (fun r => r.match_id == i)

/-- `total_points` of one match (line 24): number of its point rows. -/
def total_points (l : List PointRow) (i : Nat) : Nat :=
  (rowsOfMatch l i).length

/-- The distinct `(match_id, set_number, game_number)` keys of one match
(lines 28-29), in first-appearance order. -/
def gamesOfMatch (l : List PointRow) (i : Nat) : List (Nat × Nat × Nat) :=
  ((rowsOfMatch l i).map gameKey).dedup

/-- `total_games` of one match (line 29): number of distinct
`(set_number, game_number)` groups among its points. -/
def total_games (l : List PointRow) (i : Nat) : Nat :=
  (gamesOfMatch l i).length

/-- `total_deuces` of one match (lines 38-44): the sum of the boolean
input column `is_deuce` over its points. -/
def total_deuces (l : List PointRow) (i : Nat) : Nat :=
  (rowsOfMatch l i).countP (fun r => r.is_deuce)

/-- `deuce_count` of one game (lines 47-53): the sum of `is_deuce` over
the rows of that `(match_id, set_number, game_number)` group. -/
def deuceCountOfGame (l : List PointRow) (k : Nat × Nat × Nat) : Nat :=
  (l.filter (fun r => gameKey r == k)).countP (fun r => r.is_deuce)

/-- `games_0_deuce` (line 56): games of the match whose deuce count is 0. -/
def games_0_deuce (l : List PointRow) (i : Nat) : Nat :=
  (gamesOfMatch l i).countP (fun k => deuceCountOfGame l k == 0)

/-- `games_1_deuce` (line 57). -/
def games_1_deuce (l : List PointRow) (i : Nat) : Nat :=
  (gamesOfMatch l i).countP (fun k => deuceCountOfGame l k == 1)

/-- `games_2_deuces` (line 58). -/
def games_2_deuces (l : List PointRow) (i : Nat) : Nat :=
  (gamesOfMatch l i).countP (fun k => deuceCountOfGame l k == 2)

/-- `games_3+_deuces` (line 59): games with more than 2 deuce points. -/
def games_3plus_deuces (l : List PointRow) (i : Nat) : Nat :=
  (gamesOfMatch l i).countP (fun k => 2 < deuceCountOfGame l k)

/-- `sets_with_tiebreak` (lines 73-79): number of distinct `set_number`
values among the tie-break rows of the match. -/
def sets_with_tiebreak (l : List PointRow) (i : Nat) : Nat :=
  (((l.filter (fun r => r.match_id == i && r.is_tiebreak)).map
    (fun r => r.set_number)).dedup).length

/-- `drop_duplicates(subset=["match_id","set_number","game_number"])` with
the pandas default `keep="first"` (line 98): keeps the first row of each
game key in frame order. `seen` accumulates the keys already emitted. -/
def dropDupGames (seen : List (Nat × Nat × Nat)) :
    List PointRow → List PointRow
  | [] => []
  | r :: rest =>
    if gameKey r ∈ seen then dropDupGames seen rest
    else r :: dropDupGames (gameKey r :: seen) rest

/-- `tb_last` of `get_tiebreak_stats` (lines 95-100): the point rows
flagged `is_tiebreak` and `is_game_point` — note `df_scores` is NOT sorted
in this function, so frame order is input order — de-duplicated per game
key keeping the FIRST such row (the comment in the code says "last point of each
tie-break game" but `drop_duplicates` defaults to `keep="first"`). -/
def tbLast (l : List PointRow) : List PointRow :=
  dropDupGames [] (l.filter (fun r => r.is_tiebreak && r.is_game_point))

/-- `tie_breaks_won_team_1` (lines 107, 110, 114-121): among the kept
tie-break rows of the match, those passing the winner test of team 1. -/
def tie_breaks_won_team_1 (l : List PointRow) (i : Nat) : Nat :=
  ((tbLast l).filter (fun r => r.match_id == i)).countP tbWin1

/-- `tie_breaks_won_team_2` (lines 108, 111, 114-121). -/
def tie_breaks_won_team_2 (l : List PointRow) (i : Nat) : Nat :=
  ((tbLast l).filter (fun r => r.match_id == i)).countP tbWin2

/-- Size of one `(match_id, set_number, game_number)` group (lines
137-143). -/
def pointsOfGame (l : List PointRow) (k : Nat × Nat × Nat) : Nat :=
  (l.filter (fun r => gameKey r == k)).length

/-- `max_points_in_game` (lines 154-160): the largest group size among the games of the match.
-/
def max_points_in_game (l : List PointRow) (i : Nat) : Nat :=
  ((gamesOfMatch l i).map (pointsOfGame l)).foldr max 0

/-- `avg_points_per_game` (lines 145-151) as an exact rational: total
points of the match divided by its number of games. The source rounds the
float mean to one decimal (`.mean().round(1)`); that final float rounding
is not modelled, no claim concerns it. -/
def avg_points_per_game (l : List PointRow) (i : Nat) : ℚ :=
  ((((gamesOfMatch l i).map (pointsOfGame l)).sum : ℚ) /
    ((gamesOfMatch l i).length : ℚ))

/-- The annotated frame of `get_game_points_saved` (lines 167-189): sort
by the ordering key, keep regular (non-tie-break) rows, and mark each row
with "a later row of the same game exists among the kept rows". -/
def gpPoints (l : List PointRow) : List (PointRow × Bool) :=
  markNext gameKey ((sortPoints l).filter (fun r => !r.is_tiebreak))

/-- `game_points_faced_team_1` (lines 181, 194-209): team 1 faces a game
point when team 2 holds one; counted over the regular rows of the match. -/
def game_points_faced_team_1 (l : List PointRow) (i : Nat) : Nat :=
  ((gpPoints l).filter (fun x => x.1.match_id == i)).countP
    (fun x => gpFor2 x.1)

/-- `game_points_faced_team_2` (lines 182, 194-209). -/
def game_points_faced_team_2 (l : List PointRow) (i : Nat) : Nat :=
  ((gpPoints l).filter (fun x => x.1.match_id == i)).countP
    (fun x => gpFor1 x.1)

/-- `game_points_saved_team_1` (lines 191, 194-209): faced and the game
continued. -/
def game_points_saved_team_1 (l : List PointRow) (i : Nat) : Nat :=
  ((gpPoints l).filter (fun x => x.1.match_id == i)).countP
    (fun x => gpFor2 x.1 && x.2)

/-- `game_points_saved_team_2` (lines 192, 194-209). -/
def game_points_saved_team_2 (l : List PointRow) (i : Nat) : Nat :=
  ((gpPoints l).filter (fun x => x.1.match_id == i)).countP
    (fun x => gpFor1 x.1 && x.2)

/-- The annotated frame of `get_set_points_saved` (lines 250-259): the
sorted frame of `add_set_point_flqgs` with each row marked with "a later
row of the same `(match_id, set_number)` group exists". -/
def spPoints (l : List PointRow) : List (PointRow × Bool) :=
  markNext setKey (sortPoints l)

/-- `set_points_faced_team_1` (lines 253, 264-278). -/
def set_points_faced_team_1 (l : List PointRow) (i : Nat) : Nat :=
  ((spPoints l).filter (fun x => x.1.match_id == i)).countP
    (fun x => spFor2 x.1)

/-- `set_points_faced_team_2` (lines 254, 264-278). -/
def set_points_faced_team_2 (l : List PointRow) (i : Nat) : Nat :=
  ((spPoints l).filter (fun x => x.1.match_id == i)).countP
    (fun x => spFor1 x.1)

/-- `set_points_saved_team_1` (lines 261, 264-278). -/
def set_points_saved_team_1 (l : List PointRow) (i : Nat) : Nat :=
  ((spPoints l).filter (fun x => x.1.match_id == i)).countP
    (fun x => spFor2 x.1 && x.2)

/-- `set_points_saved_team_2` (lines 262, 264-278). -/
def set_points_saved_team_2 (l : List PointRow) (i : Nat) : Nat :=
  ((spPoints l).filter (fun x => x.1.match_id == i)).countP
    (fun x => spFor1 x.1 && x.2)

/-- The annotated frame of `get_match_points_saved` (lines 283, 297-299):
sorted rows marked with "a later row of the same match exists". -/
def mpPoints (l : List PointRow) : List (PointRow × Bool) :=
  markNext (fun r => r.match_id) (sortPoints l)

/-- `match_points_faced_team_1` (lines 293, 304-318), for a given
`sets_to_win` (the Python default of the function is 2). -/
def match_points_faced_team_1 (stw : Int) (l : List PointRow) (i : Nat) :
    Nat :=
  ((mpPoints l).filter (fun x => x.1.match_id == i)).countP
    (fun x => mpFor2 stw x.1)

/-- `match_points_faced_team_2` (lines 294, 304-318). -/
def match_points_faced_team_2 (stw : Int) (l : List PointRow) (i : Nat) :
    Nat :=
  ((mpPoints l).filter (fun x => x.1.match_id == i)).countP
    (fun x => mpFor1 stw x.1)

/-- `match_points_saved_team_1` (lines 301, 304-318). -/
def match_points_saved_team_1 (stw : Int) (l : List PointRow) (i : Nat) :
    Nat :=
  ((mpPoints l).filter (fun x => x.1.match_id == i)).countP
    (fun x => mpFor2 stw x.1 && x.2)

/-- `match_points_saved_team_2` (lines 302, 304-318). -/
def match_points_saved_team_2 (stw : Int) (l : List PointRow) (i : Nat) :
    Nat :=
  ((mpPoints l).filter (fun x => x.1.match_id == i)).countP
    (fun x => mpFor1 stw x.1 && x.2)

/-- `l.any` over a match id: whether the point log has at least one row of
that match, i.e. whether the `groupby("match_id")` tables carry a row for
it. -/
def hasPointsOf (l : List PointRow) (i : Nat) : Bool :=
  l.any (fun r => r.match_id == i)

/-- Whether the match has at least one regular (non-tie-break) point: the
presence condition for the `get_game_points_saved` output, whose frame
drops tie-break rows before grouping (line 170). -/
def hasRegularPointsOf (l : List PointRow) (i : Nat) : Bool :=
  l.any (fun r => r.match_id == i && !r.is_tiebreak)

/-- One row of the final `df_stats` of `build_stats` (lines 322-344).
Every cell is an `Option`: `none` embeds a pandas NaN/NA cell, produced by
a left merge that found no row for the key. `avg_points_per_game` is held
as an exact rational (see `avg_points_per_game`). -/
structure StatsRow where
  match_id : Option Nat
  total_points : Option Nat
  total_games : Option Nat
  total_deuces : Option Nat
  games_0_deuce : Option Nat
  games_1_deuce : Option Nat
  games_2_deuces : Option Nat
  games_3plus_deuces : Option Nat
  sets_with_tiebreak : Option Nat
  tie_breaks_won_team_1 : Option Nat
  tie_breaks_won_team_2 : Option Nat
  avg_points_per_game : Option ℚ
  max_points_in_game : Option Nat
  game_points_faced_team_1 : Option Nat
  game_points_saved_team_1 : Option Nat
  game_points_faced_team_2 : Option Nat
  game_points_saved_team_2 : Option Nat
  set_points_faced_team_1 : Option Nat
  set_points_saved_team_1 : Option Nat
  set_points_faced_team_2 : Option Nat
  set_points_saved_team_2 : Option Nat
  match_points_faced_team_1 : Option Nat
  match_points_saved_team_1 : Option Nat
  match_points_faced_team_2 : Option Nat
  match_points_saved_team_2 : Option Nat
deriving DecidableEq

/-- The `df_stats` row that `build_stats` (lines 322-344) produces for one
match of `df_matches`, tracing its merge chain:

`get_simple_totals` (lines 22-33) left-merges `df_matches` (key `id`)
with the per-match point totals (key `match_id`); a match with no points
finds no right-side row, so its `match_id`, `total_points` and `total_games` cells
are NaN — `build_stats` then keeps columns `match_id, total_points,
total_games` (line 324), so the row of a zero-point match carries a null
key. Every later `merge(..., on="match_id", how="left")` looks the
`match_id` up in a module table whose keys are the real match ids present
in `df_scores` (or, for the tie-break table, in `df_matches`), so a null
key matches nothing and leaves the cells of that module NaN; a non-null key
finds a row exactly when the match satisfies the presence
condition: at least one point for the deuce / points-per-game / set-point
/ match-point tables, at least one regular point for the game-point table,
and membership in `df_matches` (always true here) for the zero-filled
tie-break table. `get_match_points_saved` is called without arguments
(line 341), so `sets_to_win` is its Python default 2 and `m.sets_to_win`
is never read. No `fillna` is applied after any of these merges. -/
def statsRowFor (l : List PointRow) (m : MatchRow) : StatsRow :=
  let hp := hasPointsOf l m.id
  let hreg := hasRegularPointsOf l m.id
  { match_id := if hp then some m.id else none
    total_points := if hp then some (total_points l m.id) else none
    total_games := if hp then some (total_games l m.id) else none
    total_deuces := if hp then some (total_deuces l m.id) else none
    games_0_deuce := if hp then some (games_0_deuce l m.id) else none
    games_1_deuce := if hp then some (games_1_deuce l m.id) else none
    games_2_deuces := if hp then some (games_2_deuces l m.id) else none
    games_3plus_deuces :=
      if hp then some (games_3plus_deuces l m.id) else none
    sets_with_tiebreak :=
      if hp then some (sets_with_tiebreak l m.id) else none
    tie_breaks_won_team_1 :=
      if hp then some (tie_breaks_won_team_1 l m.id) else none
    tie_breaks_won_team_2 :=
      if hp then some (tie_breaks_won_team_2 l m.id) else none
    avg_points_per_game :=
      if hp then some (avg_points_per_game l m.id) else none
    max_points_in_game :=
      if hp then some (max_points_in_game l m.id) else none
    game_points_faced_team_1 :=
      if hreg then some (game_points_faced_team_1 l m.id) else none
    game_points_saved_team_1 :=
      if hreg then some (game_points_saved_team_1 l m.id) else none
    game_points_faced_team_2 :=
      if hreg then some (game_points_faced_team_2 l m.id) else none
    game_points_saved_team_2 :=
      if hreg then some (game_points_saved_team_2 l m.id) else none
    set_points_faced_team_1 :=
      if hp then some (set_points_faced_team_1 l m.id) else none
    set_points_saved_team_1 :=
      if hp then some (set_points_saved_team_1 l m.id) else none
    set_points_faced_team_2 :=
      if hp then some (set_points_faced_team_2 l m.id) else none
    set_points_saved_team_2 :=
      if hp then some (set_points_saved_team_2 l m.id) else none
    match_points_faced_team_1 :=
      if hp then some (match_points_faced_team_1 2 l m.id) else none
    match_points_saved_team_1 :=
      if hp then some (match_points_saved_team_1 2 l m.id) else none
    match_points_faced_team_2 :=
      if hp then some (match_points_faced_team_2 2 l m.id) else none
    match_points_saved_team_2 :=
      if hp then some (match_points_saved_team_2 2 l m.id) else none }

/-- `build_stats` (lines 322-344): one output row per `df_matches` row, in
`df_matches` order (pandas left merges preserve left order and the module
tables have unique keys). -/
def build_stats (ms : List MatchRow) (l : List PointRow) : List StatsRow :=
  ms.map (statsRowFor l)

/-! ### Claim-side definitions and concrete inputs -/

/-- Modelled from the spec (claims C3/C8 compare the code against these
words, they are NOT translations of the source): "a team holds a match
point iff it holds a set point AND its pre-point count of sets already won
is ≥ sets_to_win − 1", with "sets_to_win ... taken from the
record in the match list and defaults to 2 when absent". -/
def claimMatchPointFor1 (m : MatchRow) (r : PointRow) : Bool :=
  spFor1 r && setsWon1 r ≥ (m.sets_to_win.getD 2 : Int) - 1

/-- Modelled from the spec: the claimed engine-derived deuce flag, "true
exactly when that pre-point score is 40-40 or an advantage-equalized
state" — in the token domain an advantage-equalized game shows as both
tokens back at "40". NOT a translation of the source, which reads
`is_deuce` from the input table. -/
def claimIsDeuce (r : PointRow) : Bool :=
  r.point_score_team_1 == "40" && r.point_score_team_2 == "40"

/-- A default row all concrete test rows are built from: match 1, set 1,
game 1, point 1, every score "0", all flags clear. -/
def baseRow : PointRow :=
  { match_id := 1, set_number := 1, game_number := 1, point_number := 1
    point_score_team_1 := "0", point_score_team_2 := "0"
    game_score_team_1 := "0", game_score_team_2 := "0"
    set_score_team_1 := "0", set_score_team_2 := "0"
    is_tiebreak := false, is_deuce := false, is_game_point := false }

/-- Tie-break point at pre-point score 6-5: team 1 at game point (6+1=7,
margin 2); team 2 wins the point. -/
def tbP1 : PointRow :=
  { baseRow with
    game_number := 13, point_number := 12
    point_score_team_1 := "6", point_score_team_2 := "5"
    is_tiebreak := true, is_game_point := true }

/-- Tie-break point at 6-6: no game point; team 2 wins the point. -/
def tbP2 : PointRow :=
  { baseRow with
    game_number := 13, point_number := 13
    point_score_team_1 := "6", point_score_team_2 := "6"
    is_tiebreak := true }

/-- Tie-break point at 6-7: team 2 at game point (7+1=8 ≥ 7, margin 2);
team 2 wins it, taking the tie-break 8-6. This is the last point of the
game. -/
def tbP3 : PointRow :=
  { baseRow with
    game_number := 13, point_number := 14
    point_score_team_1 := "6", point_score_team_2 := "7"
    is_tiebreak := true, is_game_point := true }

/-- A tie-break game in which the first game point of team 1 (at 6-5) is saved
and team 2 then wins the tie-break 8-6 at its own game point (at 6-7). -/
def tbSavedLog : List PointRow := [tbP1, tbP2, tbP3]

/-- Regular point at 40-0 with the set-game count at 5-0 and one set
already won by team 1: team 1 holds game, set and (with one set in hand) a
default-threshold match point. -/
def c3row : PointRow :=
  { baseRow with
    point_score_team_1 := "40", point_score_team_2 := "0"
    game_score_team_1 := "5", game_score_team_2 := "0"
    set_score_team_1 := "1" }

/-- Single-point log for the match-point threshold counterexample. -/
def c3log : List PointRow := [c3row]

/-- Regular log with two points, distinct keys, team 2 facing a game point
at the first (40-0) which is then saved: witness input for the lookahead
theorem. -/
def w4a : PointRow :=
  { baseRow with point_score_team_1 := "40" }

/-- Second point of the lookahead witness log. -/
def w4b : PointRow :=
  { baseRow with point_number := 2, point_score_team_1 := "A" }

/-- Witness log for the lookahead theorem. -/
def lookaheadLog : List PointRow := [w4a, w4b]

/-- Regular point at 40-15 (a game point for team 1 by the token rule)
whose set-game count token for team 1 is not numeric. -/
def c7gpRow : PointRow :=
  { baseRow with
    point_score_team_1 := "40", point_score_team_2 := "15"
    game_score_team_1 := "X" }

/-- A point whose team-1 point-score, set-game-count and set-count tokens
are all malformed. -/
def c7allRow : PointRow :=
  { baseRow with
    point_score_team_1 := "x", game_score_team_1 := "y"
    set_score_team_1 := "z" }

/-- A tie-break point whose team-1 point-score token is malformed. -/
def c7tbRow : PointRow :=
  { baseRow with point_score_team_1 := "x", is_tiebreak := true }

/-- A point at pre-point score 0-0 whose input `is_deuce` flag is
(wrongly) set. -/
def c8row : PointRow :=
  { baseRow with is_deuce := true }

/-- Single-point log for the deuce-flag counterexample. -/
def c8log : List PointRow := [c8row]

/-- First point of a game with a gap in `point_number`: pre-point 40-0,
team 2 faces a game point. -/
def gapR1 : PointRow :=
  { baseRow with point_score_team_1 := "40" }

/-- The next recorded point of the same game jumps to `point_number` 3:
the group 1,3 has a gap. -/
def gapR2 : PointRow :=
  { baseRow with point_number := 3 }

/-- A point log violating the contiguous `point_number` invariant. -/
def gapLog : List PointRow := [gapR1, gapR2]

/-- Deuce-bucket witness log: match 1 has two games, one with a single
deuce point and one without. -/
def c9log : List PointRow :=
  [{ baseRow with is_deuce := true },
   { baseRow with game_number := 2, is_deuce := false }]

/-! ### Generic list lemmas -/

theorem any_perm {α : Type} (p : α → Bool) {l₁ l₂ : List α}
    (h : l₁.Perm l₂) : l₁.any p = l₂.any p := by
  apply Bool.eq_iff_iff.mpr
  simp only [List.any_eq_true]
  constructor
  · rintro ⟨a, ha, hp⟩
    exact ⟨a, h.mem_iff.mp ha, hp⟩
  · rintro ⟨a, ha, hp⟩
    exact ⟨a, h.mem_iff.mpr ha, hp⟩

theorem any_congr_mem {α : Type} {p q : α → Bool} {l : List α}
    (h : ∀ a ∈ l, p a = q a) : l.any p = l.any q := by
  apply Bool.eq_iff_iff.mpr
  simp only [List.any_eq_true]
  constructor
  · rintro ⟨a, ha, hp⟩
    exact ⟨a, ha, (h a ha) ▸ hp⟩
  · rintro ⟨a, ha, hq⟩
    exact ⟨a, ha, (h a ha).symm ▸ hq⟩

theorem countP_bucket_partition {κ : Type} (f : κ → Nat) (ks : List κ) :
    ks.countP (fun k => f k == 0) + ks.countP (fun k => f k == 1) +
      ks.countP (fun k => f k == 2) + ks.countP (fun k => 2 < f k) =
      ks.length := by
  induction ks with
  | nil => rfl
  | cons a t ih =>
    simp only [List.countP_cons, List.length_cons, beq_iff_eq,
      decide_eq_true_eq]
    split_ifs <;> omega

/-! ### Facts about the lexicographic key order -/

theorem lex4Le_trans (x y z : Nat × Nat × Nat × Nat)
    (h1 : lex4Le x y = true) (h2 : lex4Le y z = true) :
    lex4Le x z = true := by
  obtain ⟨a1, a2, a3, a4⟩ := x
  obtain ⟨b1, b2, b3, b4⟩ := y
  obtain ⟨c1, c2, c3, c4⟩ := z
  simp only [lex4Le, Bool.or_eq_true, Bool.and_eq_true, decide_eq_true_eq,
    beq_iff_eq] at *
  omega

theorem lex4Le_total (x y : Nat × Nat × Nat × Nat) :
    (lex4Le x y || lex4Le y x) = true := by
  obtain ⟨a1, a2, a3, a4⟩ := x
  obtain ⟨b1, b2, b3, b4⟩ := y
  simp only [lex4Le, Bool.or_eq_true, Bool.and_eq_true, decide_eq_true_eq,
    beq_iff_eq]
  omega

theorem lex4Lt_irrefl (x : Nat × Nat × Nat × Nat) : lex4Lt x x = false := by
  obtain ⟨a1, a2, a3, a4⟩ := x
  simp only [lex4Lt, Bool.or_eq_false_iff, Bool.and_eq_false_iff]
  simp only [decide_eq_false_iff_not, beq_iff_eq]
  omega

theorem lex4_lt_of_le_ne (x y : Nat × Nat × Nat × Nat)
    (hle : lex4Le x y = true) (hne : x ≠ y) :
    lex4Lt x y = true ∧ lex4Lt y x = false := by
  obtain ⟨a1, a2, a3, a4⟩ := x
  obtain ⟨b1, b2, b3, b4⟩ := y
  simp only [Ne, Prod.mk.injEq, not_and] at hne
  simp only [lex4Le, Bool.or_eq_true, Bool.and_eq_true, decide_eq_true_eq,
    beq_iff_eq] at hle
  constructor
  · simp only [lex4Lt, Bool.or_eq_true, Bool.and_eq_true, decide_eq_true_eq,
      beq_iff_eq]
    by_cases e1 : a1 = b1 <;> by_cases e2 : a2 = b2 <;>
      by_cases e3 : a3 = b3 <;> omega
  · simp only [lex4Lt, Bool.or_eq_false_iff, Bool.and_eq_false_iff]
    simp only [decide_eq_false_iff_not, beq_iff_eq, beq_eq_false_iff_ne, Ne]
    by_cases e1 : a1 = b1 <;> by_cases e2 : a2 = b2 <;>
      by_cases e3 : a3 = b3 <;> omega

/-! ### Sorting and lookahead lemmas -/

theorem insertRow_perm (a : PointRow) (t : List PointRow) :
    (insertRow a t).Perm (a :: t) := by
  induction t with
  | nil => exact List.Perm.refl _
  | cons b t ih =>
    simp only [insertRow]
    split
    · exact List.Perm.refl _
    · exact (ih.cons b).trans (List.Perm.swap a b t)

theorem sortPoints_perm (l : List PointRow) : (sortPoints l).Perm l := by
  induction l with
  | nil => exact List.Perm.refl _
  | cons a t ih =>
    exact (insertRow_perm a (sortPoints t)).trans (ih.cons a)

theorem insertRow_sorted (a : PointRow) (t : List PointRow)
    (h : t.Pairwise (fun x y => lex4Le (keyOf x) (keyOf y) = true)) :
    (insertRow a t).Pairwise
      (fun x y => lex4Le (keyOf x) (keyOf y) = true) := by
  induction t with
  | nil => simp [insertRow]
  | cons b t ih =>
    rw [List.pairwise_cons] at h
    obtain ⟨hb, ht⟩ := h
    simp only [insertRow]
    split
    case isTrue hab =>
      refine List.pairwise_cons.mpr ⟨?_, List.pairwise_cons.mpr ⟨hb, ht⟩⟩
      intro x hx
      rcases List.mem_cons.mp hx with rfl | hx
      · exact hab
      · exact lex4Le_trans _ _ _ hab (hb x hx)
    case isFalse hab =>
      have hba : lex4Le (keyOf b) (keyOf a) = true := by
        have := lex4Le_total (keyOf a) (keyOf b)
        simp only [Bool.or_eq_true] at this
        rcases this with h | h
        · exact absurd h hab
        · exact h
      refine List.pairwise_cons.mpr ⟨?_, ih ht⟩
      intro x hx
      rcases List.mem_cons.mp ((insertRow_perm a t).mem_iff.mp hx) with
        rfl | hx
      · exact hba
      · exact hb x hx

theorem sortPoints_sorted (l : List PointRow) :
    (sortPoints l).Pairwise
      (fun a b => lex4Le (keyOf a) (keyOf b) = true) := by
  induction l with
  | nil => exact List.Pairwise.nil
  | cons a t ih => exact insertRow_sorted a (sortPoints t) ih

theorem countP_markNext_fst {κ : Type} [DecidableEq κ] (k : PointRow → κ)
    (f g : PointRow → Bool) (L : List PointRow) :
    ((markNext k L).filter (fun x => g x.1)).countP (fun x => f x.1) =
      (L.filter g).countP f := by
  induction L with
  | nil => rfl
  | cons r t ih =>
    simp only [markNext, List.filter_cons]
    by_cases hg : g r
    · simp only [hg, if_pos, List.countP_cons, ih]
    · simp only [hg, Bool.false_eq_true, if_neg, ih, not_false_iff]

theorem markNext_eq_map {κ : Type} [DecidableEq κ] (k : PointRow → κ) :
    ∀ L : List PointRow,
      L.Pairwise (fun a b => lex4Le (keyOf a) (keyOf b) = true) →
      L.Pairwise (fun a b => keyOf a ≠ keyOf b) →
      markNext k L = L.map (fun r =>
        (r, L.any (fun s =>
          decide (k s = k r) && lex4Lt (keyOf r) (keyOf s))))
  | [], _, _ => rfl
  | r :: t, hsort, hnd => by
    rw [List.pairwise_cons] at hsort hnd
    obtain ⟨hr_le, ht_sort⟩ := hsort
    obtain ⟨hr_ne, ht_nd⟩ := hnd
    simp only [markNext, List.map_cons, List.any_cons, List.cons.injEq,
      Prod.mk.injEq]
    refine ⟨⟨trivial, ?_⟩, ?_⟩
    · rw [lex4Lt_irrefl, Bool.and_false, Bool.false_or]
      apply any_congr_mem
      intro s hs
      by_cases he : k s = k r
      · have hlt := (lex4_lt_of_le_ne (keyOf r) (keyOf s) (hr_le s hs)
          (hr_ne s hs)).1
        simp [he, hlt]
      · simp [he]
    · rw [markNext_eq_map k t ht_sort ht_nd]
      apply List.map_congr_left
      intro x hx
      have hlt := (lex4_lt_of_le_ne (keyOf r) (keyOf x) (hr_le x hx)
        (hr_ne x hx)).2
      simp [hlt]

theorem countP_saved_markNext {κ : Type} [DecidableEq κ] (k : PointRow → κ)
    (f g : PointRow → Bool) (L : List PointRow)
    (hsort : L.Pairwise (fun a b => lex4Le (keyOf a) (keyOf b) = true))
    (hnd : L.Pairwise (fun a b => keyOf a ≠ keyOf b)) :
    ((markNext k L).filter (fun x => g x.1)).countP
        (fun x => f x.1 && x.2) =
      (L.filter g).countP (fun r => f r && L.any (fun s =>
        decide (k s = k r) && lex4Lt (keyOf r) (keyOf s))) := by
  rw [markNext_eq_map k L hsort hnd, List.filter_map, List.countP_map]
  rfl

/-- "Faced" aggregates of the modules that lose no rows (`set` and `match`
level): the per-match count of a per-row flag over the annotated sorted
frame equals its count over the raw log. -/
theorem faced_count_nofilter {κ : Type} [DecidableEq κ] (k : PointRow → κ)
    (f g : PointRow → Bool) (l : List PointRow) :
    ((markNext k (sortPoints l)).filter (fun x => g x.1)).countP
        (fun x => f x.1) =
      l.countP (fun r => f r && g r) := by
  rw [countP_markNext_fst, List.countP_filter]
  exact (sortPoints_perm l).countP_eq _

/-- "Faced" aggregates of the game-level module, whose frame first drops
the rows failing `q` (the tie-break rows). -/
theorem faced_count_filter {κ : Type} [DecidableEq κ] (k : PointRow → κ)
    (f g q : PointRow → Bool) (l : List PointRow) :
    ((markNext k ((sortPoints l).filter q)).filter
        (fun x => g x.1)).countP (fun x => f x.1) =
      l.countP (fun r => (f r && g r) && q r) := by
  rw [countP_markNext_fst, List.countP_filter, List.countP_filter]
  exact (sortPoints_perm l).countP_eq _

/-- "Saved" aggregates of the `set` and `match` level modules: when the
composite ordering keys of the log are pairwise distinct, the
`shift(-1)` lookahead flag in the sorted frame holds exactly when the raw
log has a row of the same group with a strictly larger ordering key. -/
theorem saved_count_nofilter {κ : Type} [DecidableEq κ] (k : PointRow → κ)
    (f g : PointRow → Bool) (l : List PointRow)
    (hkeys : l.Pairwise (fun a b => keyOf a ≠ keyOf b)) :
    ((markNext k (sortPoints l)).filter (fun x => g x.1)).countP
        (fun x => f x.1 && x.2) =
      l.countP (fun r => (f r && l.any (fun s =>
        decide (k s = k r) && lex4Lt (keyOf r) (keyOf s))) && g r) := by
  have hnd : (sortPoints l).Pairwise (fun a b => keyOf a ≠ keyOf b) :=
    (((sortPoints_perm l).pairwise_iff (fun h => h.symm)).mpr hkeys)
  rw [countP_saved_markNext k f g _ (sortPoints_sorted l) hnd,
    List.countP_filter, (sortPoints_perm l).countP_eq _]
  apply List.countP_congr
  intro r _
  rw [any_perm _ (sortPoints_perm l)]

/-- "Saved" aggregates of the game-level module: same as
`saved_count_nofilter` but across the frame restricted to the rows
satisfying `q`, so the lookahead witness must also satisfy `q`. -/
theorem saved_count_filter {κ : Type} [DecidableEq κ] (k : PointRow → κ)
    (f g q : PointRow → Bool) (l : List PointRow)
    (hkeys : l.Pairwise (fun a b => keyOf a ≠ keyOf b)) :
    ((markNext k ((sortPoints l).filter q)).filter
        (fun x => g x.1)).countP (fun x => f x.1 && x.2) =
      l.countP (fun r => ((f r && l.any (fun s =>
        q s && (decide (k s = k r) && lex4Lt (keyOf r) (keyOf s)))) &&
          g r) && q r) := by
  have hsort := (sortPoints_sorted l).filter q
  have hnd : ((sortPoints l).filter q).Pairwise
      (fun a b => keyOf a ≠ keyOf b) :=
    ((((sortPoints_perm l).pairwise_iff (fun h => h.symm)).mpr
      hkeys).filter q)
  rw [countP_saved_markNext k f g _ hsort hnd, List.countP_filter,
    List.countP_filter, (sortPoints_perm l).countP_eq _]
  apply List.countP_congr
  intro r _
  rw [List.any_filter, any_perm _ (sortPoints_perm l)]

/-! ### Claim theorems -/

/-- C1: evaluation at the failing input. The claim says the engine credits
a tie-break to the team whose pre-point score +1 reaches ≥7 with margin ≥2
AT THE LAST POINT of the tie-break game. On `tbSavedLog`, the last point
`tbP3` (pre-point 6-7) satisfies the condition for team 2 only; yet the
engine credits team 1, because `drop_duplicates` (pandas default
`keep="first"`) retains the FIRST game-point row (`tbP1`, pre-point 6-5),
contradicting the comment in the code itself "Keep only the last point of each
tie-break game". -/
theorem c1_tiebreak_first_game_point_eval :
    tie_breaks_won_team_1 tbSavedLog 1 = 1 ∧
      tie_breaks_won_team_2 tbSavedLog 1 = 0 ∧
      tbSavedLog.getLast? = some tbP3 ∧
      tbWin2 tbP3 = true ∧ tbWin1 tbP3 = false := by
  decide

/-- C2: evaluation at the failing input. The claim says a match with zero
associated points appears in the output keyed by its identifier with every
numeric metric 0. The first merge leaves the `match_id`
cell NaN, every later left merge on that null key finds nothing, and
`build_stats` applies no final `fillna(0)`: the row comes out with a null
key and every metric null, not 0. -/
theorem c2_zero_point_match_eval :
    build_stats [⟨1, none⟩] [] =
      [{ match_id := none, total_points := none, total_games := none
         total_deuces := none, games_0_deuce := none
         games_1_deuce := none, games_2_deuces := none
         games_3plus_deuces := none, sets_with_tiebreak := none
         tie_breaks_won_team_1 := none, tie_breaks_won_team_2 := none
         avg_points_per_game := none, max_points_in_game := none
         game_points_faced_team_1 := none, game_points_saved_team_1 := none
         game_points_faced_team_2 := none, game_points_saved_team_2 := none
         set_points_faced_team_1 := none, set_points_saved_team_1 := none
         set_points_faced_team_2 := none, set_points_saved_team_2 := none
         match_points_faced_team_1 := none
         match_points_saved_team_1 := none
         match_points_faced_team_2 := none
         match_points_saved_team_2 := none }] := by
  rfl

/-- C10: evaluation at the failing input. `gapLog` has a gap in
`point_number` (1 then 3) inside one game, yet the engine performs no
ordering validation: it silently sorts and computes the lookahead
statistics over the malformed group (the game point faced by team 2 counts as
saved because a later row exists) and produces a normal output row. -/
theorem c10_silent_on_ordering_gap :
    gapLog.map (fun r => r.point_number) = [1, 3] ∧
      game_points_faced_team_2 gapLog 1 = 1 ∧
      game_points_saved_team_2 gapLog 1 = 1 ∧
      (build_stats [⟨1, none⟩] gapLog).length = 1 := by
  decide

/-- C9: for every match with at least one point record, the four
deuce-bucket counts partition its games:
`games_0_deuce + games_1_deuce + games_2_deuces + games_3+_deuces` equals
`total_games`, the number of distinct `(set_number, game_number)` groups
of the match. -/
theorem c9_deuce_bucket_partition (l : List PointRow) (i : Nat)
    (_hp : hasPointsOf l i = true) :
    games_0_deuce l i + games_1_deuce l i + games_2_deuces l i +
      games_3plus_deuces l i = total_games l i := by
  simp only [games_0_deuce, games_1_deuce, games_2_deuces,
    games_3plus_deuces, total_games]
  exact countP_bucket_partition (deuceCountOfGame l) (gamesOfMatch l i)

/-- Witness for C9 at the concrete two-game log `c9log`. -/
theorem c9_witness :
    hasPointsOf c9log 1 = true ∧
      games_0_deuce c9log 1 + games_1_deuce c9log 1 +
        games_2_deuces c9log 1 + games_3plus_deuces c9log 1 =
        total_games c9log 1 :=
  ⟨by decide, c9_deuce_bucket_partition c9log 1 (by decide)⟩

/-- C5: a team faces a game point exactly at the non-tie-break points
where the pre-point token of the opponent is "A", or "40" against one of
"0"/"15"/"30" — so the per-match `game_points_faced` counts equal the
count of such points, computed only over points of non-tie-break games
(at 40-40 the rule gives neither team a game point). -/
theorem c5_game_point_rule (l : List PointRow) (i : Nat) :
    game_points_faced_team_1 l i = l.countP (fun r =>
      ((r.point_score_team_2 == "A" || (r.point_score_team_2 == "40" &&
        (r.point_score_team_1 == "0" || r.point_score_team_1 == "15" ||
          r.point_score_team_1 == "30"))) && r.match_id == i) &&
        !r.is_tiebreak) ∧
    game_points_faced_team_2 l i = l.countP (fun r =>
      ((r.point_score_team_1 == "A" || (r.point_score_team_1 == "40" &&
        (r.point_score_team_2 == "0" || r.point_score_team_2 == "15" ||
          r.point_score_team_2 == "30"))) && r.match_id == i) &&
        !r.is_tiebreak) := by
  constructor
  · simp only [game_points_faced_team_1, gpPoints]
    exact faced_count_filter gameKey gpFor2 (fun r => r.match_id == i)
      (fun r => !r.is_tiebreak) l
  · simp only [game_points_faced_team_2, gpPoints]
    exact faced_count_filter gameKey gpFor1 (fun r => r.match_id == i)
      (fun r => !r.is_tiebreak) l

/-- C8 counterexample: a point at pre-point score 0-0 whose input
`is_deuce` column is set is counted by `total_deuces`, while the claimed
engine-derived rule ("true exactly when the pre-point score is 40-40")
counts nothing: the engine takes `is_deuce` from the input and never
derives or validates it. -/
theorem c8_counterexample :
    (statsRowFor c8log ⟨1, none⟩).total_deuces = some 1 ∧
      c8log.countP claimIsDeuce = 0 := by
  decide

/-- C8 as amended: for every match with at least one point, `total_deuces`
is the number of points of the match whose INPUT `is_deuce` flag is set —
the engine sums the column as-is. -/
theorem c8_input_deuce_flag (l : List PointRow) (m : MatchRow)
    (h : hasPointsOf l m.id = true) :
    (statsRowFor l m).total_deuces =
      some (l.countP (fun r => r.is_deuce && r.match_id == m.id)) := by
  simp only [statsRowFor, h, if_true]
  refine congrArg some ?_
  simp only [total_deuces, rowsOfMatch]
  exact List.countP_filter _ _ l

/-- Witness for the amended C8 at the concrete log `c8log`. -/
theorem c8_witness :
    hasPointsOf c8log 1 = true ∧
      (statsRowFor c8log ⟨1, none⟩).total_deuces =
        some (c8log.countP (fun r => r.is_deuce && r.match_id == 1)) :=
  ⟨by decide, c8_input_deuce_flag c8log ⟨1, none⟩ (by decide)⟩

/-- C3 counterexample: for a match whose record carries `sets_to_win = 3`,
at a point where team 1 holds a set point with only 1 set in hand, the
rule of the claim (threshold `sets_to_win − 1 = 2` from the match record) yields
no match point, but the engine — which never consults the match list and
always uses the Python default `sets_to_win = 2` — counts one match point
faced by team 2. -/
theorem c3_counterexample :
    (statsRowFor c3log ⟨1, some 3⟩).match_points_faced_team_2 = some 1 ∧
      c3log.countP (fun r => claimMatchPointFor1 ⟨1, some 3⟩ r &&
        r.match_id == 1) = 0 := by
  decide

/-- C3 as amended: a team holds a match point iff it holds a set point and
its coerced pre-point sets-won count is ≥ 2 − 1, `sets_to_win` being
always the default 2 (`build_stats` never reads it from the match list —
no right-hand side depends on `m.sets_to_win`); the per-match
`match_points_faced` AND `match_points_saved` counts are computed from
this flag, the saved counts additionally requiring a later point of the
same match (under the invariant that composite ordering keys are pairwise
distinct). -/
theorem c3_default_threshold (l : List PointRow) (m : MatchRow)
    (h : hasPointsOf l m.id = true)
    (hkeys : l.Pairwise (fun a b => keyOf a ≠ keyOf b)) :
    ((statsRowFor l m).match_points_faced_team_1 =
      some (l.countP (fun r =>
        (spFor2 r && setsWon2 r ≥ 2 - 1) && r.match_id == m.id))) ∧
    ((statsRowFor l m).match_points_faced_team_2 =
      some (l.countP (fun r =>
        (spFor1 r && setsWon1 r ≥ 2 - 1) && r.match_id == m.id))) ∧
    ((statsRowFor l m).match_points_saved_team_1 =
      some (l.countP (fun r =>
        ((spFor2 r && setsWon2 r ≥ 2 - 1) && l.any (fun s =>
          decide (s.match_id = r.match_id) &&
            lex4Lt (keyOf r) (keyOf s))) && r.match_id == m.id))) ∧
    ((statsRowFor l m).match_points_saved_team_2 =
      some (l.countP (fun r =>
        ((spFor1 r && setsWon1 r ≥ 2 - 1) && l.any (fun s =>
          decide (s.match_id = r.match_id) &&
            lex4Lt (keyOf r) (keyOf s))) && r.match_id == m.id))) := by
  have h1 : match_points_faced_team_1 2 l m.id =
      l.countP (fun r => mpFor2 2 r && r.match_id == m.id) := by
    simp only [match_points_faced_team_1, mpPoints]
    exact faced_count_nofilter (fun r => r.match_id) (mpFor2 2)
      (fun r => r.match_id == m.id) l
  have h2 : match_points_faced_team_2 2 l m.id =
      l.countP (fun r => mpFor1 2 r && r.match_id == m.id) := by
    simp only [match_points_faced_team_2, mpPoints]
    exact faced_count_nofilter (fun r => r.match_id) (mpFor1 2)
      (fun r => r.match_id == m.id) l
  have h3 : match_points_saved_team_1 2 l m.id =
      l.countP (fun r => (mpFor2 2 r && l.any (fun s =>
        decide (s.match_id = r.match_id) &&
          lex4Lt (keyOf r) (keyOf s))) && r.match_id == m.id) := by
    simp only [match_points_saved_team_1, mpPoints]
    exact saved_count_nofilter (fun r => r.match_id) (mpFor2 2)
      (fun r => r.match_id == m.id) l hkeys
  have h4 : match_points_saved_team_2 2 l m.id =
      l.countP (fun r => (mpFor1 2 r && l.any (fun s =>
        decide (s.match_id = r.match_id) &&
          lex4Lt (keyOf r) (keyOf s))) && r.match_id == m.id) := by
    simp only [match_points_saved_team_2, mpPoints]
    exact saved_count_nofilter (fun r => r.match_id) (mpFor1 2)
      (fun r => r.match_id == m.id) l hkeys
  simp only [statsRowFor, h, if_true]
  exact ⟨congrArg some h1, congrArg some h2, congrArg some h3,
    congrArg some h4⟩

/-- Witness for the amended C3 at the concrete log `c3log`, discharging
both hypotheses there and obtaining the faced and saved characterizations
of team 1 from the theorem itself. -/
theorem c3_witness :
    hasPointsOf c3log 1 = true ∧
      c3log.Pairwise (fun a b => keyOf a ≠ keyOf b) ∧
      ((statsRowFor c3log ⟨1, some 3⟩).match_points_faced_team_1 =
        some (c3log.countP (fun r =>
          (spFor2 r && setsWon2 r ≥ 2 - 1) && r.match_id == 1))) ∧
      ((statsRowFor c3log ⟨1, some 3⟩).match_points_saved_team_1 =
        some (c3log.countP (fun r =>
          ((spFor2 r && setsWon2 r ≥ 2 - 1) && c3log.any (fun s =>
            decide (s.match_id = r.match_id) &&
              lex4Lt (keyOf r) (keyOf s))) && r.match_id == 1))) :=
  ⟨by decide, by decide,
    (c3_default_threshold c3log ⟨1, some 3⟩ (by decide) (by decide)).1,
    (c3_default_threshold c3log ⟨1, some 3⟩ (by decide)
      (by decide)).2.2.1⟩

/-- C7 counterexample: a regular point at 40-15 whose team-1 set-game
count token is not numeric. The claim says ALL derived pressure flags at
such a point resolve to false; but the game-point flag is computed purely
from the string tokens and stays true (only the set-point flag, which
needs the coercion, is false). -/
theorem c7_counterexample :
    toNum? c7gpRow.game_score_team_1 = none ∧
      c7gpRow.is_tiebreak = false ∧
      gpFor1 c7gpRow = true ∧ spFor1 c7gpRow = false := by
  decide

/-- C7 as amended, per cause: an arithmetic coercion failure never raises
(all embedded classifiers are total) and makes exactly the flags whose
computation requires the failed coercion false. A malformed tie-break
point score on either side falsifies both tie-break winner tests and, on a
tie-break point, both set-point flags and hence both default-threshold
match-point flags; a malformed set-game count on either side falsifies
both regular set-point flags and hence both match-point flags; a malformed
set count is coerced to 0, below the default threshold 2 − 1, falsifying
the match-point flag of that team. The regular game-point flag needs no
coercion and is unaffected (see the counterexample). -/
theorem c7_malformed_flags (r : PointRow) :
    ((toNum? r.point_score_team_1 = none ∨
        toNum? r.point_score_team_2 = none) →
      tbWin1 r = false ∧ tbWin2 r = false ∧
        (r.is_tiebreak = true → spFor1 r = false ∧ spFor2 r = false ∧
          mpFor1 2 r = false ∧ mpFor2 2 r = false)) ∧
    ((toNum? r.game_score_team_1 = none ∨
        toNum? r.game_score_team_2 = none) →
      r.is_tiebreak = false → spFor1 r = false ∧ spFor2 r = false ∧
        mpFor1 2 r = false ∧ mpFor2 2 r = false) ∧
    (toNum? r.set_score_team_1 = none → mpFor1 2 r = false) ∧
    (toNum? r.set_score_team_2 = none → mpFor2 2 r = false) := by
  refine ⟨?_, ?_, ?_, ?_⟩
  · intro h
    have ht1 : tbWin1 r = false := by
      rcases h with h | h
      · simp [tbWin1, h]
      · cases h1 : toNum? r.point_score_team_1 <;> simp [tbWin1, h1, h]
    have ht2 : tbWin2 r = false := by
      rcases h with h | h
      · simp [tbWin2, h]
      · cases h1 : toNum? r.point_score_team_1 <;> simp [tbWin2, h1, h]
    refine ⟨ht1, ht2, fun htb => ?_⟩
    have hs1 : spFor1 r = false := by simp [spFor1, htb, ht1]
    have hs2 : spFor2 r = false := by simp [spFor2, htb, ht2]
    exact ⟨hs1, hs2, by simp [mpFor1, hs1], by simp [mpFor2, hs2]⟩
  · intro h htb
    have hs1 : spFor1 r = false := by
      rcases h with h | h
      · simp [spFor1, htb, h]
      · cases h1 : toNum? r.game_score_team_1 <;>
          simp [spFor1, htb, h1, h]
    have hs2 : spFor2 r = false := by
      rcases h with h | h
      · simp [spFor2, htb, h]
      · cases h1 : toNum? r.game_score_team_1 <;>
          simp [spFor2, htb, h1, h]
    exact ⟨hs1, hs2, by simp [mpFor1, hs1], by simp [mpFor2, hs2]⟩
  · intro h
    simp [mpFor1, setsWon1, h]
  · intro h
    simp [mpFor2, setsWon2, h]

/-- Witness for the amended C7, applying the theorem at three concrete
points that each exhibit one coercion-failure cause: a tie-break point
with a malformed point score (`c7tbRow`), a regular point with a malformed
set-game count (`c7gpRow`, the same input as the counterexample), and a
point with a malformed set count (`c7allRow`). -/
theorem c7_witness :
    (toNum? c7tbRow.point_score_team_1 = none ∧
      c7tbRow.is_tiebreak = true ∧
      tbWin1 c7tbRow = false ∧ tbWin2 c7tbRow = false ∧
      spFor1 c7tbRow = false ∧ spFor2 c7tbRow = false) ∧
    (toNum? c7gpRow.game_score_team_1 = none ∧
      c7gpRow.is_tiebreak = false ∧
      spFor1 c7gpRow = false ∧ spFor2 c7gpRow = false ∧
      mpFor1 2 c7gpRow = false ∧ mpFor2 2 c7gpRow = false) ∧
    (toNum? c7allRow.set_score_team_1 = none ∧
      mpFor1 2 c7allRow = false) :=
  ⟨⟨by decide, by decide,
    ((c7_malformed_flags c7tbRow).1 (Or.inl (by decide))).1,
    ((c7_malformed_flags c7tbRow).1 (Or.inl (by decide))).2.1,
    (((c7_malformed_flags c7tbRow).1 (Or.inl (by decide))).2.2
      (by decide)).1,
    (((c7_malformed_flags c7tbRow).1 (Or.inl (by decide))).2.2
      (by decide)).2.1⟩,
   ⟨by decide, by decide,
    ((c7_malformed_flags c7gpRow).2.1 (Or.inl (by decide))
      (by decide)).1,
    ((c7_malformed_flags c7gpRow).2.1 (Or.inl (by decide))
      (by decide)).2.1,
    ((c7_malformed_flags c7gpRow).2.1 (Or.inl (by decide))
      (by decide)).2.2.1,
    ((c7_malformed_flags c7gpRow).2.1 (Or.inl (by decide))
      (by decide)).2.2.2⟩,
   ⟨by decide,
    (c7_malformed_flags c7allRow).2.2.1 (by decide)⟩⟩

/-- C6: per-point characterization of the set-point flags of
`add_set_point_flqgs`. On a non-tie-break point a team holds a set point
iff it holds a game point and its coerced pre-point set-game count is 5
with the opponent at most 4, or 6 with the opponent exactly 5; on a
tie-break point iff its coerced pre-point tie-break score +1 reaches ≥7
with a lead of ≥2. -/
theorem c6_set_point_rule (r : PointRow) :
    (spFor1 r = true ↔
      if r.is_tiebreak then
        ∃ a b : Int, toNum? r.point_score_team_1 = some a ∧
          toNum? r.point_score_team_2 = some b ∧
          a + 1 ≥ 7 ∧ a + 1 - b ≥ 2
      else
        gpFor1 r = true ∧
        ∃ a b : Int, toNum? r.game_score_team_1 = some a ∧
          toNum? r.game_score_team_2 = some b ∧
          ((a = 5 ∧ b ≤ 4) ∨ (a = 6 ∧ b = 5))) ∧
    (spFor2 r = true ↔
      if r.is_tiebreak then
        ∃ a b : Int, toNum? r.point_score_team_1 = some a ∧
          toNum? r.point_score_team_2 = some b ∧
          b + 1 ≥ 7 ∧ b + 1 - a ≥ 2
      else
        gpFor2 r = true ∧
        ∃ a b : Int, toNum? r.game_score_team_1 = some a ∧
          toNum? r.game_score_team_2 = some b ∧
          ((b = 5 ∧ a ≤ 4) ∨ (b = 6 ∧ a = 5))) := by
  constructor
  · by_cases htb : r.is_tiebreak
    · simp only [spFor1, htb, if_true, tbWin1]
      cases h1 : toNum? r.point_score_team_1 <;>
        cases h2 : toNum? r.point_score_team_2 <;>
        simp [h1, h2]
    · simp only [spFor1, htb, Bool.false_eq_true, if_false]
      cases h1 : toNum? r.game_score_team_1 <;>
        cases h2 : toNum? r.game_score_team_2 <;>
        simp [h1, h2]
  · by_cases htb : r.is_tiebreak
    · simp only [spFor2, htb, if_true, tbWin2]
      cases h1 : toNum? r.point_score_team_1 <;>
        cases h2 : toNum? r.point_score_team_2 <;>
        simp [h1, h2]
    · simp only [spFor2, htb, Bool.false_eq_true, if_false]
      cases h1 : toNum? r.game_score_team_1 <;>
        cases h2 : toNum? r.game_score_team_2 <;>
        simp [h1, h2]

/-- C4: at every grouping level, a faced opportunity is counted as saved
iff a later point (strictly larger composite ordering key) exists in the
same group — same match/set/game for game points (the claimed invariant
that a game is uniformly regular or tie-break is hypothesis `htb`; the
lookahead witness may then be any point of the game), same match/set for
set points, same match for match points — under the data-model invariant
that composite ordering keys are pairwise distinct; and every faced point
is classified as exactly one of saved or converted, so each saved count
never exceeds the corresponding faced count. -/
theorem c4_saved_iff_later (l : List PointRow) (i : Nat)
    (hkeys : l.Pairwise (fun a b => keyOf a ≠ keyOf b))
    (htb : ∀ a ∈ l, ∀ b ∈ l, gameKey a = gameKey b →
      a.is_tiebreak = b.is_tiebreak) :
    (game_points_saved_team_1 l i = l.countP (fun r =>
      ((gpFor2 r && l.any (fun s => decide (gameKey s = gameKey r) &&
        lex4Lt (keyOf r) (keyOf s))) && r.match_id == i) &&
        !r.is_tiebreak)) ∧
    (game_points_saved_team_2 l i = l.countP (fun r =>
      ((gpFor1 r && l.any (fun s => decide (gameKey s = gameKey r) &&
        lex4Lt (keyOf r) (keyOf s))) && r.match_id == i) &&
        !r.is_tiebreak)) ∧
    (set_points_saved_team_1 l i = l.countP (fun r =>
      (spFor2 r && l.any (fun s => decide (setKey s = setKey r) &&
        lex4Lt (keyOf r) (keyOf s))) && r.match_id == i)) ∧
    (set_points_saved_team_2 l i = l.countP (fun r =>
      (spFor1 r && l.any (fun s => decide (setKey s = setKey r) &&
        lex4Lt (keyOf r) (keyOf s))) && r.match_id == i)) ∧
    (match_points_saved_team_1 2 l i = l.countP (fun r =>
      (mpFor2 2 r && l.any (fun s => decide (s.match_id = r.match_id) &&
        lex4Lt (keyOf r) (keyOf s))) && r.match_id == i)) ∧
    (match_points_saved_team_2 2 l i = l.countP (fun r =>
      (mpFor1 2 r && l.any (fun s => decide (s.match_id = r.match_id) &&
        lex4Lt (keyOf r) (keyOf s))) && r.match_id == i)) ∧
    game_points_saved_team_1 l i ≤ game_points_faced_team_1 l i ∧
    game_points_saved_team_2 l i ≤ game_points_faced_team_2 l i ∧
    set_points_saved_team_1 l i ≤ set_points_faced_team_1 l i ∧
    set_points_saved_team_2 l i ≤ set_points_faced_team_2 l i ∧
    match_points_saved_team_1 2 l i ≤ match_points_faced_team_1 2 l i ∧
    match_points_saved_team_2 2 l i ≤ match_points_faced_team_2 2 l i := by
  have hgame : ∀ f : PointRow → Bool,
      ((markNext gameKey ((sortPoints l).filter
          (fun r => !r.is_tiebreak))).filter
        (fun x => x.1.match_id == i)).countP (fun x => f x.1 && x.2) =
      l.countP (fun r =>
        ((f r && l.any (fun s => decide (gameKey s = gameKey r) &&
          lex4Lt (keyOf r) (keyOf s))) && r.match_id == i) &&
          !r.is_tiebreak) := by
    intro f
    rw [saved_count_filter gameKey f (fun r => r.match_id == i)
      (fun r => !r.is_tiebreak) l hkeys]
    apply List.countP_congr
    intro r hr
    by_cases hrt : r.is_tiebreak
    · simp [hrt]
    · have hrt2 : r.is_tiebreak = false := (Bool.not_eq_true _).mp hrt
      have hany : l.any (fun s => (!s.is_tiebreak) &&
          (decide (gameKey s = gameKey r) &&
            lex4Lt (keyOf r) (keyOf s))) =
          l.any (fun s => decide (gameKey s = gameKey r) &&
            lex4Lt (keyOf r) (keyOf s)) := by
        apply any_congr_mem
        intro s hs
        by_cases hk : gameKey s = gameKey r
        · have hst : s.is_tiebreak = r.is_tiebreak := htb s hs r hr hk
          simp [hst, hrt2]
        · simp [hk]
      rw [hany]
  refine ⟨?_, ?_, ?_, ?_, ?_, ?_, ?_, ?_, ?_, ?_, ?_, ?_⟩
  · simp only [game_points_saved_team_1, gpPoints]
    exact hgame gpFor2
  · simp only [game_points_saved_team_2, gpPoints]
    exact hgame gpFor1
  · simp only [set_points_saved_team_1, spPoints]
    exact saved_count_nofilter setKey spFor2 (fun r => r.match_id == i)
      l hkeys
  · simp only [set_points_saved_team_2, spPoints]
    exact saved_count_nofilter setKey spFor1 (fun r => r.match_id == i)
      l hkeys
  · simp only [match_points_saved_team_1, mpPoints]
    exact saved_count_nofilter (fun r => r.match_id) (mpFor2 2)
      (fun r => r.match_id == i) l hkeys
  · simp only [match_points_saved_team_2, mpPoints]
    exact saved_count_nofilter (fun r => r.match_id) (mpFor1 2)
      (fun r => r.match_id == i) l hkeys
  · simp only [game_points_saved_team_1, game_points_faced_team_1]
    exact List.countP_mono_left (fun x _ hx => ((Bool.and_eq_true _ _) ▸ hx).1)
  · simp only [game_points_saved_team_2, game_points_faced_team_2]
    exact List.countP_mono_left (fun x _ hx => ((Bool.and_eq_true _ _) ▸ hx).1)
  · simp only [set_points_saved_team_1, set_points_faced_team_1]
    exact List.countP_mono_left (fun x _ hx => ((Bool.and_eq_true _ _) ▸ hx).1)
  · simp only [set_points_saved_team_2, set_points_faced_team_2]
    exact List.countP_mono_left (fun x _ hx => ((Bool.and_eq_true _ _) ▸ hx).1)
  · simp only [match_points_saved_team_1, match_points_faced_team_1]
    exact List.countP_mono_left (fun x _ hx => ((Bool.and_eq_true _ _) ▸ hx).1)
  · simp only [match_points_saved_team_2, match_points_faced_team_2]
    exact List.countP_mono_left (fun x _ hx => ((Bool.and_eq_true _ _) ▸ hx).1)

/-- Witness for C4 at the concrete two-point log `lookaheadLog`: both
hypotheses hold there and the first equality is obtained from the theorem
itself. -/
theorem c4_witness :
    lookaheadLog.Pairwise (fun a b => keyOf a ≠ keyOf b) ∧
      (∀ a ∈ lookaheadLog, ∀ b ∈ lookaheadLog, gameKey a = gameKey b →
        a.is_tiebreak = b.is_tiebreak) ∧
      game_points_saved_team_1 lookaheadLog 1 =
        lookaheadLog.countP (fun r => ((gpFor2 r &&
          lookaheadLog.any (fun s => decide (gameKey s = gameKey r) &&
            lex4Lt (keyOf r) (keyOf s))) && r.match_id == 1) &&
          !r.is_tiebreak) :=
  ⟨by decide, by decide,
    (c4_saved_iff_later lookaheadLog 1 (by decide) (by decide)).1⟩

end PadelStats
